import Mathlib

/-!
Verification development for the DreamLines coloring-book generator.

The definitions below are a shallow embedding of the repository's core:
src/types.ts (data model), src/services/geminiService.ts (model-call
wrappers with two-tier fallback) and src/App.tsx (generation pipeline,
project store).  Outbound model calls are represented by environment
records: each call site is given either a thrown error (Except.error) or
the response payload the provider returned (Except.ok ...).  Everything
else is translated directly from the source control flow.
-/

namespace DreamLines

/-- ASCII apostrophe, used to build string literals containing one. -/
def apos : String := String.mk [Char.ofNat 39]

-- ---------------------------------------------------------------------------
-- Data model (src/types.ts)
-- ---------------------------------------------------------------------------

inductive AgeGroup
  | toddler
  | kids
  | expert
deriving DecidableEq

structure BookConfig where
  childName : String
  theme : String
  pageCount : Nat
  aspectRatio : String
  imageSize : String
  artStyle : String
  ageGroup : AgeGroup
deriving DecidableEq

inductive PageStatus
  | pending
  | generating
  | completed
  | failed
deriving DecidableEq

structure GeneratedPage where
  id : String
  sceneDescription : String
  imageUrl : Option String
  status : PageStatus
deriving DecidableEq

structure SavedProject where
  id : String
  timestamp : Nat
  config : BookConfig
  pages : List GeneratedPage
deriving DecidableEq

inductive AppState
  | SETUP
  | GENERATING_STORY
  | GENERATING_IMAGES
  | COMPLETED
deriving DecidableEq

-- ---------------------------------------------------------------------------
-- JS string helpers used by geminiService.ts
-- ---------------------------------------------------------------------------

/-- JS `a || d` for an optional string: `undefined` and the empty string are
falsy, so both fall back to the default. -/
def jsOrDefault (t : Option String) (d : String) : String :=
  match t with
  | none => d
  | some s => if s.data = [] then d else s

/-- The backtick character. -/
def btick : Char := Char.ofNat 96

/-- JS whitespace for the trim calls (ASCII subset; no claim depends on the
exotic members of the JS class). -/
def jsWs (c : Char) : Bool :=
  c = ' ' || c = '\t' || c = '\n' || c = '\r' ||
  c = Char.ofNat 11 || c = Char.ofNat 12

def dropWs : List Char → List Char
  | [] => []
  | c :: cs => if jsWs c then dropWs cs else c :: cs

/-- JS String.prototype.trim: strip leading and trailing whitespace. -/
def jsTrim (s : String) : String :=
  String.mk ((dropWs (dropWs s.data).reverse).reverse)

/-- The regex replace in geminiService.ts that strips markdown code fences:
the scanner walks left to right and at each position removes a 7-char
json fence, else a bare 3-char fence, else copies the character. -/
def removeFences : List Char → List Char
  | a :: b :: c :: 'j' :: 's' :: 'o' :: 'n' :: rest =>
    if a = btick && b = btick && c = btick then removeFences rest
    else a :: removeFences (b :: c :: 'j' :: 's' :: 'o' :: 'n' :: rest)
  | a :: b :: c :: rest =>
    if a = btick && b = btick && c = btick then removeFences rest
    else a :: removeFences (b :: c :: rest)
  | a :: rest => a :: removeFences rest
  | [] => []

/-- One leading quote removed, as by the regex anchor on the string start. -/
def dropLeadingQuote : List Char → List Char
  | '"' :: rest => rest
  | l => l

/-- One trailing quote removed, as by the regex anchor on the string end. -/
def dropTrailingQuote (l : List Char) : List Char :=
  match l.reverse with
  | '"' :: rest => rest.reverse
  | _ => l

/-- JS `s.replace handling ^quote and quote$` used on model theme output. -/
def stripOuterQuotes (s : String) : String :=
  String.mk (dropTrailingQuote (dropLeadingQuote s.data))

-- ---------------------------------------------------------------------------
-- Model of JSON.parse restricted to the shape the response schema requests
-- (an array of strings).  Other JSON shapes are outside the model and are
-- treated as parse failures.
-- ---------------------------------------------------------------------------

def isJsonWs (c : Char) : Bool :=
  c = ' ' || c = '\t' || c = '\n' || c = '\r'

def skipWs : List Char → List Char
  | [] => []
  | c :: cs => if isJsonWs c then skipWs cs else c :: cs

/-- Parse a JSON string body after the opening quote; returns the decoded
string and the remaining input.  The unicode escape form is not modelled. -/
def parseStringBody : List Char → Option (String × List Char)
  | [] => none
  | '"' :: cs => some ("", cs)
  | '\\' :: c :: cs =>
    let esc : Option Char :=
      if c = '"' then some '"'
      else if c = '\\' then some '\\'
      else if c = '/' then some '/'
      else if c = 'n' then some '\n'
      else if c = 't' then some '\t'
      else if c = 'r' then some '\r'
      else if c = 'b' then some (Char.ofNat 8)
      else if c = 'f' then some (Char.ofNat 12)
      else none
    match esc with
    | some e =>
      match parseStringBody cs with
      | some (s, r) => some (String.mk (e :: s.data), r)
      | none => none
    | none => none
  | c :: cs =>
    if c = '\\' then none
    else
      match parseStringBody cs with
      | some (s, r) => some (String.mk (c :: s.data), r)
      | none => none

/-- Parse the comma-separated string elements of a JSON array, positioned
just after the opening bracket (array known to be non-empty). -/
def parseElems (fuel : Nat) (cs : List Char) : Option (List String × List Char) :=
  match fuel with
  | 0 => none
  | fuel + 1 =>
    match skipWs cs with
    | '"' :: cs1 =>
      match parseStringBody cs1 with
      | none => none
      | some (s, cs2) =>
        match skipWs cs2 with
        | ',' :: cs3 =>
          match parseElems fuel cs3 with
          | some (ss, r) => some (s :: ss, r)
          | none => none
        | ']' :: cs3 => some ([s], cs3)
        | _ => none
    | _ => none

def jsonParseStringArray (s : String) : Option (List String) :=
  match skipWs s.data with
  | '[' :: cs1 =>
    match skipWs cs1 with
    | ']' :: rest => if skipWs rest = [] then some [] else none
    | _ =>
      match parseElems (cs1.length + 1) cs1 with
      | some (ss, rest) => if skipWs rest = [] then some ss else none
      | none => none
  | _ => none

-- ---------------------------------------------------------------------------
-- geminiService.ts : generateStoryScenes
-- ---------------------------------------------------------------------------

/-- One outbound request to the provider: the model id and the contents
string that the source passes to generateContent. -/
structure ModelCall where
  model : String
  contents : String
deriving DecidableEq

/-- Environment for one generateStoryScenes invocation: for each of the two
tiers, either the call threw (error) or it returned, with the response
text field (which may be absent). -/
structure StoryEnv where
  attempt1 : Except Unit (Option String)
  attempt2 : Except Unit (Option String)

/-- Result of generateStoryScenes plus the list of requests it issued, in
order (so theorems can talk about whether the fallback tier was tried). -/
structure StoryRun where
  result : List String
  calls : List ModelCall
deriving DecidableEq

/-- The story prompt built in generateStoryScenes (whitespace normalized;
the template literal's indentation is immaterial to every claim). -/
def storyPrompt (childName theme : String) (pageCount : Nat) : String :=
  "You are a professional children" ++ apos ++ "s book author and illustrator. " ++
  "Create a " ++ toString pageCount ++ "-page outline for a coloring book for a child named \"" ++
  childName ++ "\" based on the theme: \"" ++ theme ++ "\". " ++
  "The output must be a list of " ++ toString pageCount ++ " distinct visual scene descriptions. " ++
  "Each description must be optimized for an image generator to create a black and white coloring page. " ++
  "Focus on clear subjects, thick lines, and fun details. " ++
  "Example description: \"A friendly dragon roasting a marshmallow, clear outline, simple background, coloring book style.\""

/-- The cleanText-then-JSON.parse step shared by both tiers:
(text or \x22[]\x22 when falsy).replace fences.trim then parse. -/
def storyAttemptParse (t : Option String) : Option (List String) :=
  jsonParseStringArray (jsTrim (String.mk (removeFences (jsOrDefault t "[]").data)))

/-- What one responding tier yields downstream: the parsed array, or (for
the fallback tier, whose parse error is caught) the empty array. -/
def storyTierResult (t : Option String) : List String :=
  match storyAttemptParse t with
  | some arr => arr
  | none => []

/-- The inner try block of generateStoryScenes: the second (Flash) tier,
whose own failure (thrown call or parse error) is caught and becomes an
empty array; by this point both tiers have been called. -/
def storyFallback (call1 call2 : ModelCall) (env : StoryEnv) : StoryRun :=
  { result := match env.attempt2 with
      | .ok t => storyTierResult t
      | .error _ => [],
    calls := [call1, call2] }

def generateStoryScenes (childName theme : String) (pageCount : Nat)
    (env : StoryEnv) : StoryRun :=
  let prompt := storyPrompt childName theme pageCount
  let call1 : ModelCall := { model := "gemini-3-pro-preview", contents := prompt }
  let call2 : ModelCall :=
    { model := "gemini-2.5-flash",
      contents := prompt ++ "\n Return ONLY a JSON array of strings." }
  match env.attempt1 with
  | .ok t =>
    match storyAttemptParse t with
    | some arr => { result := arr, calls := [call1] }
    | none => storyFallback call1 call2 env
  | .error _ => storyFallback call1 call2 env

-- ---------------------------------------------------------------------------
-- geminiService.ts : generateColoringPage
-- ---------------------------------------------------------------------------

/-- One part of an image response; inlineData holds the base64 payload when
present (candidates / content / parts optional chains collapse to the
parts list of the first candidate, absent pieces giving the empty list). -/
structure ImagePart where
  inlineData : Option String
deriving DecidableEq

structure ImageResponse where
  parts : List ImagePart
deriving DecidableEq

/-- Environment for one generateColoringPage invocation, one entry per tier. -/
structure ImageEnv where
  attempt1 : Except Unit ImageResponse
  attempt2 : Except Unit ImageResponse

/-- One image request: model id, prompt, and the imageConfig fields that the
source sets (the fallback tier omits imageSize). -/
structure GenRequest where
  model : String
  prompt : String
  aspectRatio : Option String
  imageSize : Option String
deriving DecidableEq

/-- Result of generateColoringPage plus the requests issued, in order. -/
structure ImageRun where
  result : Option String
  requests : List GenRequest
deriving DecidableEq

/-- The complexity modifier switch on the age group. -/
def complexityPrompt : AgeGroup → String
  | .toddler => "very simple outlines, large shapes, low detail, easy to color, thick bold lines, minimal background clutter, toddler friendly"
  | .expert => "highly intricate details, fine lines, complex patterns, advanced composition, detailed background, mandala-like precision, adult coloring book style"
  | .kids => "standard coloring book complexity, balanced detail, clear lines, engaging scene, suitable for ages 5-9"

/-- The rendering prompt (whitespace normalized). -/
def finalPrompt (sceneDescription artStyle : String) (ageGroup : AgeGroup) : String :=
  "coloring book page, black and white line art, " ++ sceneDescription ++ ". " ++
  "Style: " ++ artStyle ++ ". " ++
  "Complexity Level: " ++ complexityPrompt ageGroup ++ ". " ++
  "Thick clean lines, white background, no shading, no grayscale, no color, vector style, high contrast, ink drawing."

/-- The extractImage helper: first part carrying inlineData wins. -/
def extractImage (r : ImageResponse) : Option String :=
  match r.parts.find? (fun p => p.inlineData.isSome) with
  | some p => p.inlineData.map (fun d => "data:image/png;base64," ++ d)
  | none => none

def generateColoringPage (env : ImageEnv) (sceneDescription artStyle : String)
    (ageGroup : AgeGroup) (aspectRatio imageSize : String) : ImageRun :=
  let prompt := finalPrompt sceneDescription artStyle ageGroup
  let req1 : GenRequest :=
    { model := "gemini-3-pro-image-preview", prompt := prompt,
      aspectRatio := some aspectRatio, imageSize := some imageSize }
  match env.attempt1 with
  | .ok r => { result := extractImage r, requests := [req1] }
  | .error _ =>
    let req2 : GenRequest :=
      { model := "gemini-2.5-flash-image", prompt := prompt,
        aspectRatio := some aspectRatio, imageSize := none }
    match env.attempt2 with
    | .ok r => { result := extractImage r, requests := [req1, req2] }
    | .error _ => { result := none, requests := [req1, req2] }

-- ---------------------------------------------------------------------------
-- geminiService.ts : generateRandomTheme
-- ---------------------------------------------------------------------------

/-- generateRandomTheme: on a thrown call, or an absent/empty text, the fixed
default is returned; otherwise the trimmed, outer-quote-stripped text. -/
def generateRandomTheme (call : Except Unit (Option String)) : String :=
  match call with
  | .error _ => "Magical Forest Adventure"
  | .ok t =>
    match t with
    | none => "Magical Forest Adventure"
    | some s =>
      let r := stripOuterQuotes (jsTrim s)
      if r.data = [] then "Magical Forest Adventure" else r

-- ---------------------------------------------------------------------------
-- App.tsx : Project Store (saveProjectToHistory)
-- ---------------------------------------------------------------------------

/-- saveProjectToHistory: the new project is prepended and the list capped at
3 entries.  Both Date.now() reads are modelled by the single clock value
`now`.  The in-memory update always happens first; the durable
localStorage write may then fail, which the source only logs and never
rolls back, so the Project Store modelled here is the in-memory list. -/
def saveProjectToHistory (newPages : List GeneratedPage) (newConfig : BookConfig)
    (historyItems : List SavedProject) (now : Nat) : List SavedProject :=
  ({ id := toString now, timestamp := now, config := newConfig,
     pages := newPages } :: historyItems).take 3

-- ---------------------------------------------------------------------------
-- App.tsx : Generation Pipeline
-- ---------------------------------------------------------------------------

/-- Environment for one startGeneration run: the random-theme call, the two
story-planner tiers, a per-page-index image environment, and the clock. -/
structure RunEnv where
  themeCall : Except Unit (Option String)
  story : StoryEnv
  images : Nat → ImageEnv
  now : Nat

/-- Observable outcome of one startGeneration run.
pageTrace is the sequence of page arrays published by setPages during the
run, in order; pages is the final pages state (the last published array,
or the pre-run pages when the run never published); fatalAlert records
the alert raised by the catch block of startGeneration. -/
structure RunResult where
  appState : AppState
  pageTrace : List (List GeneratedPage)
  pages : List GeneratedPage
  history : List SavedProject
  resolvedTheme : String
  plannerTheme : Option String
  validationError : Option String
  fatalAlert : Bool

/-- The pages built the instant the Story Planner returns: one pending page
per scene description, ids page-0, page-1, ... -/
def mkInitialPages (descs : List String) : List GeneratedPage :=
  descs.enum.map fun p =>
    { id := "page-" ++ toString p.1, sceneDescription := p.2,
      imageUrl := none, status := PageStatus.pending }

/-- The body of one loop iteration of generateImagesSequence after the page
was marked generating: render it, then mark completed (image attached) or
failed.  JS truthiness on the returned url coincides with the Option
match because extractImage only ever returns a non-empty string. -/
def renderPage (cfg : BookConfig) (env : ImageEnv) (p : GeneratedPage) : GeneratedPage :=
  match (generateColoringPage env p.sceneDescription cfg.artStyle cfg.ageGroup
      cfg.aspectRatio cfg.imageSize).result with
  | some url => { p with imageUrl := some url, status := PageStatus.completed }
  | none => { p with status := PageStatus.failed }

/-- The sequential loop of generateImagesSequence, producing the list of
page arrays published by setPages (two per iteration: after marking
generating, and after the terminal mark) together with the final pages.
done holds the already-processed pages, rest the not-yet-started ones. -/
def genSeqTrace (cfg : BookConfig) (envs : Nat → ImageEnv) :
    Nat → List GeneratedPage → List GeneratedPage →
    List (List GeneratedPage) × List GeneratedPage
  | _, done, [] => ([], done)
  | i, done, p :: rest =>
    let gen := { p with status := PageStatus.generating }
    let fin := renderPage cfg (envs i) gen
    let r := genSeqTrace cfg envs (i + 1) (done ++ [fin]) rest
    ((done ++ gen :: rest) :: (done ++ fin :: rest) :: r.1, r.2)

/-- Outcome of generateImagesSequence: the published page arrays, the final
pages, the updated Project Store and the final app state. -/
structure SeqOutcome where
  trace : List (List GeneratedPage)
  finalPages : List GeneratedPage
  history : List SavedProject
  appState : AppState

/-- generateImagesSequence: run the loop, then persist with the run's
resolved theme spliced into the config, then set COMPLETED. -/
def generateImagesSequence (cfg : BookConfig) (envs : Nat → ImageEnv)
    (currentPages : List GeneratedPage) (history : List SavedProject)
    (currentTheme : String) (now : Nat) : SeqOutcome :=
  { trace := (genSeqTrace cfg envs 0 [] currentPages).1,
    finalPages := (genSeqTrace cfg envs 0 [] currentPages).2,
    history := saveProjectToHistory (genSeqTrace cfg envs 0 [] currentPages).2
      { cfg with theme := currentTheme } history now,
    appState := AppState.COMPLETED }

/-- The validation message shown for a blank child name. -/
def childNameError : String := "Please enter the child" ++ apos ++ "s name."

/-- Theme resolution at the start of a run: a blank (empty or
whitespace-only) theme is replaced by the Theme Oracle's random theme.
generateRandomTheme already substitutes the fixed default on failure and
never throws, so the additional catch in startGeneration (same default)
is unreachable. -/
def resolveTheme (cfg : BookConfig) (themeCall : Except Unit (Option String)) : String :=
  if jsTrim cfg.theme = "" then generateRandomTheme themeCall else cfg.theme

/-- The success path of startGeneration once the planner returned a
non-empty list: build the pending pages, publish them, switch to
GENERATING_IMAGES and run the image loop (which ends in COMPLETED). -/
def startGenerationSuccess (cfg : BookConfig)
    (history : List SavedProject) (env : RunEnv) : RunResult :=
  let scenes := (generateStoryScenes cfg.childName (resolveTheme cfg env.themeCall)
    cfg.pageCount env.story).result
  let initPages := mkInitialPages scenes
  let seq := generateImagesSequence cfg env.images initPages history
    (resolveTheme cfg env.themeCall) env.now
  { appState := seq.appState, pageTrace := initPages :: seq.trace,
    pages := seq.finalPages, history := seq.history,
    resolvedTheme := resolveTheme cfg env.themeCall,
    plannerTheme := some (resolveTheme cfg env.themeCall),
    validationError := none, fatalAlert := false }

/-- startGeneration.  The function is only reachable from the SETUP screen,
so the early returns leave the app state at SETUP.  The UI-only
setConfig update of the resolved theme is not part of the run outcome;
the resolved theme reaches the persisted record through the explicit
currentTheme argument of generateImagesSequence, exactly as in the
source.  Terminal log lines are not modelled. -/
def startGeneration (cfg : BookConfig) (apiKey : String)
    (prevPages : List GeneratedPage) (history : List SavedProject)
    (env : RunEnv) : RunResult :=
  if apiKey = "" then
    { appState := AppState.SETUP, pageTrace := [], pages := prevPages,
      history := history, resolvedTheme := cfg.theme, plannerTheme := none,
      validationError := none, fatalAlert := false }
  else if jsTrim cfg.childName = "" then
    { appState := AppState.SETUP, pageTrace := [], pages := prevPages,
      history := history, resolvedTheme := cfg.theme, plannerTheme := none,
      validationError := some childNameError, fatalAlert := false }
  else if (generateStoryScenes cfg.childName (resolveTheme cfg env.themeCall)
      cfg.pageCount env.story).result = [] then
    { appState := AppState.SETUP, pageTrace := [], pages := prevPages,
      history := history, resolvedTheme := resolveTheme cfg env.themeCall,
      plannerTheme := some (resolveTheme cfg env.themeCall),
      validationError := none, fatalAlert := true }
  else
    startGenerationSuccess cfg history env

-- ---------------------------------------------------------------------------
-- Derived notions used by the statements
-- ---------------------------------------------------------------------------

/-- A page that has reached a terminal status. -/
def isDone (p : GeneratedPage) : Prop :=
  p.status = PageStatus.completed ∨ p.status = PageStatus.failed

/-- How many pages of an array are currently generating. -/
def countGenerating (l : List GeneratedPage) : Nat :=
  l.countP fun p => decide (p.status = PageStatus.generating)

/-- The legal transitions of one page between two consecutive published
arrays: pending to generating, or generating to a terminal status (the
completed case attaching the image url); id and scene are untouched. -/
def pageStep (p q : GeneratedPage) : Prop :=
  (p.status = PageStatus.pending ∧ q = { p with status := PageStatus.generating }) ∨
  (p.status = PageStatus.generating ∧
    (q = { p with status := PageStatus.failed } ∨
      ∃ url, q = { p with imageUrl := some url, status := PageStatus.completed }))

/-- Two consecutive published page arrays differ in exactly one position,
by one legal page transition. -/
def snapStep (s t : List GeneratedPage) : Prop :=
  ∃ front p q back, s = front ++ p :: back ∧ t = front ++ q :: back ∧ pageStep p q

-- ---------------------------------------------------------------------------
-- Helper lemmas
-- ---------------------------------------------------------------------------

lemma mkInitialPages_length (descs : List String) :
    (mkInitialPages descs).length = descs.length := by
  simp [mkInitialPages]

lemma mkInitialPages_pending (descs : List String) :
    ∀ p ∈ mkInitialPages descs, p.status = PageStatus.pending := by
  intro p hp
  simp only [mkInitialPages, List.mem_map] at hp
  obtain ⟨q, _, rfl⟩ := hp
  rfl

lemma renderPage_isDone (cfg : BookConfig) (e : ImageEnv) (p : GeneratedPage) :
    isDone (renderPage cfg e p) := by
  unfold renderPage isDone
  cases (generateColoringPage e p.sceneDescription cfg.artStyle cfg.ageGroup
    cfg.aspectRatio cfg.imageSize).result <;> simp

lemma renderPage_pageStep (cfg : BookConfig) (e : ImageEnv) (q : GeneratedPage)
    (hq : q.status = PageStatus.generating) : pageStep q (renderPage cfg e q) := by
  unfold renderPage
  cases (generateColoringPage e q.sceneDescription cfg.artStyle cfg.ageGroup
      cfg.aspectRatio cfg.imageSize).result with
  | none => exact Or.inr ⟨hq, Or.inl rfl⟩
  | some url => exact Or.inr ⟨hq, Or.inr ⟨url, rfl⟩⟩

lemma genSeqTrace_final_length (cfg : BookConfig) (envs : Nat → ImageEnv) :
    ∀ (rest done : List GeneratedPage) (i : Nat),
      ((genSeqTrace cfg envs i done rest).2).length = done.length + rest.length := by
  intro rest
  induction rest with
  | nil => intro done i; simp [genSeqTrace]
  | cons p rest ih =>
    intro done i
    simp only [genSeqTrace]
    rw [ih]
    simp
    omega

lemma genSeqTrace_final_isDone (cfg : BookConfig) (envs : Nat → ImageEnv) :
    ∀ (rest done : List GeneratedPage) (i : Nat), (∀ p ∈ done, isDone p) →
      ∀ p ∈ (genSeqTrace cfg envs i done rest).2, isDone p := by
  intro rest
  induction rest with
  | nil => intro done i h; simpa [genSeqTrace] using h
  | cons p rest ih =>
    intro done i h
    apply ih
    intro q hq
    rcases List.mem_append.mp hq with h1 | h2
    · exact h q h1
    · rw [List.mem_singleton.mp h2]
      exact renderPage_isDone cfg (envs i) _

lemma countGenerating_zero_of (l : List GeneratedPage)
    (h : ∀ p ∈ l, p.status ≠ PageStatus.generating) : countGenerating l = 0 := by
  rw [countGenerating, List.countP_eq_zero]
  intro p hp
  simpa using h p hp

lemma isDone_not_generating (p : GeneratedPage) (h : isDone p) :
    p.status ≠ PageStatus.generating := by
  rcases h with h | h <;> simp [h]

lemma genSeqTrace_count_le_one (cfg : BookConfig) (envs : Nat → ImageEnv) :
    ∀ (rest done : List GeneratedPage) (i : Nat),
      (∀ p ∈ done, isDone p) → (∀ p ∈ rest, p.status = PageStatus.pending) →
      ∀ snap ∈ (genSeqTrace cfg envs i done rest).1, countGenerating snap ≤ 1 := by
  intro rest
  induction rest with
  | nil => intro done i _ _ snap hs; simp [genSeqTrace] at hs
  | cons p rest ih =>
    intro done i hdone hrest snap hs
    have hdone0 : countGenerating done = 0 :=
      countGenerating_zero_of _ fun q hq => isDone_not_generating q (hdone q hq)
    have hrest0 : countGenerating rest = 0 :=
      countGenerating_zero_of _ fun q hq => by simp [hrest q (List.mem_cons_of_mem _ hq)]
    simp only [genSeqTrace, List.mem_cons] at hs
    rcases hs with rfl | rfl | hs
    · rw [countGenerating, List.countP_append, List.countP_cons]
      rw [countGenerating] at hdone0 hrest0
      simp [hdone0, hrest0]
    · rw [countGenerating, List.countP_append, List.countP_cons]
      rw [countGenerating] at hdone0 hrest0
      have : (renderPage cfg (envs i)
          { p with status := PageStatus.generating }).status ≠ PageStatus.generating :=
        isDone_not_generating _ (renderPage_isDone cfg (envs i) _)
      simp [hdone0, hrest0, this]
    · refine ih _ (i + 1) ?_ (fun q hq => hrest q (List.mem_cons_of_mem _ hq)) snap hs
      intro q hq
      rcases List.mem_append.mp hq with h1 | h2
      · exact hdone q h1
      · rw [List.mem_singleton.mp h2]
        exact renderPage_isDone cfg (envs i) _

lemma genSeqTrace_chain (cfg : BookConfig) (envs : Nat → ImageEnv) :
    ∀ (rest done : List GeneratedPage) (i : Nat),
      (∀ p ∈ rest, p.status = PageStatus.pending) →
      List.Chain' snapStep ((done ++ rest) :: (genSeqTrace cfg envs i done rest).1) := by
  intro rest
  induction rest with
  | nil => intro done i _; simp [genSeqTrace]
  | cons p rest ih =>
    intro done i hrest
    have hpend : p.status = PageStatus.pending := hrest p (List.mem_cons_self p rest)
    simp only [genSeqTrace]
    rw [List.chain'_cons]
    refine ⟨⟨done, p, { p with status := PageStatus.generating }, rest, rfl, rfl,
      Or.inl ⟨hpend, rfl⟩⟩, ?_⟩
    rw [List.chain'_cons]
    refine ⟨⟨done, { p with status := PageStatus.generating },
      renderPage cfg (envs i) { p with status := PageStatus.generating }, rest, rfl, rfl,
      renderPage_pageStep cfg (envs i) _ rfl⟩, ?_⟩
    have := ih (done ++ [renderPage cfg (envs i) { p with status := PageStatus.generating }])
      (i + 1) (fun q hq => hrest q (List.mem_cons_of_mem _ hq))
    simpa [List.append_assoc] using this

lemma take_append_take {α : Type} (k : Nat) (L M : List α) :
    (L ++ M.take k).take k = (L ++ M).take k := by
  rw [List.take_append_eq_append_take, List.take_append_eq_append_take, List.take_take]
  rw [Nat.min_eq_left (Nat.sub_le _ _)]

-- ---------------------------------------------------------------------------
-- Project Store: sequences of appends
-- ---------------------------------------------------------------------------

/-- The SavedProject record built by one append, from its arguments
(pages, config, clock value). -/
def mkProj (a : List GeneratedPage × BookConfig × Nat) : SavedProject :=
  { id := toString a.2.2, timestamp := a.2.2, config := a.2.1, pages := a.1 }

/-- A sequence of saveProjectToHistory calls applied in order. -/
def applyAppends (h : List SavedProject)
    (apps : List (List GeneratedPage × BookConfig × Nat)) : List SavedProject :=
  apps.foldl (fun acc a => saveProjectToHistory a.1 a.2.1 acc a.2.2) h

lemma saveProjectToHistory_eq (p : List GeneratedPage) (c : BookConfig)
    (h : List SavedProject) (n : Nat) :
    saveProjectToHistory p c h n = (mkProj (p, c, n) :: h).take 3 := rfl

lemma applyAppends_closed :
    ∀ (apps : List (List GeneratedPage × BookConfig × Nat)) (h0 : List SavedProject),
      h0.length ≤ 3 →
      applyAppends h0 apps = ((apps.map mkProj).reverse ++ h0).take 3 := by
  intro apps
  induction apps with
  | nil =>
    intro h0 hl
    simp only [applyAppends, List.foldl_nil, List.map_nil, List.reverse_nil, List.nil_append]
    exact (List.take_of_length_le hl).symm
  | cons a as ih =>
    intro h0 hl
    have step : applyAppends h0 (a :: as) = applyAppends ((mkProj a :: h0).take 3) as := rfl
    rw [step, ih _ (by simp)]
    rw [take_append_take]
    simp [List.append_assoc]

-- ---------------------------------------------------------------------------
-- Concrete fixtures used by witnesses and counterexamples
-- ---------------------------------------------------------------------------

def cfgMia : BookConfig :=
  { childName := "Mia", theme := "Pirate Moon", pageCount := 2, aspectRatio := "3:4",
    imageSize := "1K", artStyle := "Whimsical", ageGroup := AgeGroup.kids }

/-- First image tier answers with inline data. -/
def imgOk : ImageEnv := ⟨Except.ok ⟨[⟨some "QUJD"⟩]⟩, Except.error ()⟩

/-- Both image tiers throw. -/
def imgFail : ImageEnv := ⟨Except.error (), Except.error ()⟩

/-- First image tier answers but carries no inline image data. -/
def imgNoData : ImageEnv := ⟨Except.ok ⟨[⟨none⟩]⟩, Except.error ()⟩

/-- Both story tiers throw; the rest of the run is well-behaved. -/
def envAbortEx : RunEnv :=
  { themeCall := Except.error (), story := ⟨Except.error (), Except.error ()⟩,
    images := fun _ => imgOk, now := 7 }

/-- Story tier 1 answers two scenes; page 0 renders, page 1 fails both tiers. -/
def envTwoScenes : RunEnv :=
  { themeCall := Except.error (),
    story := ⟨Except.ok (some "[\"a\", \"b\"]"), Except.error ()⟩,
    images := fun i => if i = 0 then imgOk else imgFail, now := 7 }

/-- Story tier 1 answers a single scene. -/
def envOneScene : RunEnv :=
  { themeCall := Except.error (),
    story := ⟨Except.ok (some "[\"one scene\"]"), Except.error ()⟩,
    images := fun _ => imgOk, now := 3 }

-- ---------------------------------------------------------------------------
-- C1
-- ---------------------------------------------------------------------------

/-- C1: when the Story Planner returns an empty sequence, startGeneration
aborts the run: it raises the fatal alert, returns the app state to
SETUP, publishes no page array (so no GeneratedPage entries are
created), and leaves the Project Store untouched. -/
theorem storyPlannerEmpty_aborts (cfg : BookConfig) (apiKey : String)
    (prevPages : List GeneratedPage) (history : List SavedProject) (env : RunEnv)
    (hkey : ¬ apiKey = "") (hname : ¬ jsTrim cfg.childName = "")
    (hempty : (generateStoryScenes cfg.childName (resolveTheme cfg env.themeCall)
      cfg.pageCount env.story).result = []) :
    (startGeneration cfg apiKey prevPages history env).appState = AppState.SETUP ∧
    (startGeneration cfg apiKey prevPages history env).fatalAlert = true ∧
    (startGeneration cfg apiKey prevPages history env).pageTrace = [] ∧
    (startGeneration cfg apiKey prevPages history env).pages = prevPages ∧
    (startGeneration cfg apiKey prevPages history env).history = history := by
  unfold startGeneration
  rw [if_neg hkey, if_neg hname, if_pos hempty]
  exact ⟨rfl, rfl, rfl, rfl, rfl⟩

/-- C1 witness: a concrete run whose planner fails on both tiers. -/
theorem storyPlannerEmpty_aborts_witness :
    (generateStoryScenes cfgMia.childName (resolveTheme cfgMia envAbortEx.themeCall)
      cfgMia.pageCount envAbortEx.story).result = [] ∧
    ((startGeneration cfgMia "k" [] [] envAbortEx).appState = AppState.SETUP ∧
      (startGeneration cfgMia "k" [] [] envAbortEx).fatalAlert = true ∧
      (startGeneration cfgMia "k" [] [] envAbortEx).pageTrace = [] ∧
      (startGeneration cfgMia "k" [] [] envAbortEx).pages = [] ∧
      (startGeneration cfgMia "k" [] [] envAbortEx).history = []) :=
  ⟨by decide,
    storyPlannerEmpty_aborts cfgMia "k" [] [] envAbortEx
      (by decide) (by decide) (by decide)⟩

-- ---------------------------------------------------------------------------
-- C3
-- ---------------------------------------------------------------------------

/-- C3: the Project Store after any sequence of appends from the empty store
is exactly the 3 most recent records in most-recent-first order, hence
never exceeds 3 entries at any point; one append never exceeds the cap
whatever the prior store; and appending onto a full store of 3
unconditionally evicts the oldest entry, keeping the 2 newer ones. -/
theorem projectStore_bounded (apps : List (List GeneratedPage × BookConfig × Nat))
    (p : List GeneratedPage) (c : BookConfig) (n : Nat)
    (h : List SavedProject) (hh : h.length = 3) :
    applyAppends [] apps = ((apps.map mkProj).reverse).take 3 ∧
    (applyAppends [] apps).length ≤ 3 ∧
    (∀ h2 : List SavedProject, (saveProjectToHistory p c h2 n).length ≤ 3) ∧
    (saveProjectToHistory p c h n).length = 3 ∧
    saveProjectToHistory p c h n = mkProj (p, c, n) :: h.take 2 := by
  have hc : applyAppends [] apps = ((apps.map mkProj).reverse).take 3 := by
    have := applyAppends_closed apps [] (by simp)
    simpa using this
  refine ⟨hc, ?_, ?_, ?_, rfl⟩
  · rw [hc]
    simp [List.length_take]
  · intro h2
    simp [saveProjectToHistory, List.length_take]
  · simp [saveProjectToHistory, List.length_take, hh]

/-- C3 witness: four appends onto the empty store keep the 3 most recent,
and one append onto a full store evicts the oldest. -/
theorem projectStore_bounded_witness :
    ([] : List SavedProject).length + 3 = 3 ∧
    (applyAppends [] [([], cfgMia, 1), ([], cfgMia, 2), ([], cfgMia, 3), ([], cfgMia, 4)] =
        [mkProj ([], cfgMia, 4), mkProj ([], cfgMia, 3), mkProj ([], cfgMia, 2)] ∧
      (applyAppends [] [([], cfgMia, 1), ([], cfgMia, 2), ([], cfgMia, 3),
        ([], cfgMia, 4)]).length ≤ 3 ∧
      (∀ h2 : List SavedProject, (saveProjectToHistory [] cfgMia h2 5).length ≤ 3) ∧
      (saveProjectToHistory [] cfgMia
          [mkProj ([], cfgMia, 4), mkProj ([], cfgMia, 3), mkProj ([], cfgMia, 2)] 5).length = 3 ∧
      saveProjectToHistory [] cfgMia
          [mkProj ([], cfgMia, 4), mkProj ([], cfgMia, 3), mkProj ([], cfgMia, 2)] 5 =
        mkProj ([], cfgMia, 5) ::
          [mkProj ([], cfgMia, 4), mkProj ([], cfgMia, 3), mkProj ([], cfgMia, 2)].take 2) := by
  refine ⟨by decide, ?_⟩
  have := projectStore_bounded
    [([], cfgMia, 1), ([], cfgMia, 2), ([], cfgMia, 3), ([], cfgMia, 4)]
    [] cfgMia 5
    [mkProj ([], cfgMia, 4), mkProj ([], cfgMia, 3), mkProj ([], cfgMia, 2)] (by decide)
  exact ⟨by rw [this.1]; decide, this.2.1, this.2.2.1, this.2.2.2.1, this.2.2.2.2⟩

-- ---------------------------------------------------------------------------
-- C4 (corrected)
-- ---------------------------------------------------------------------------

/-- C4 counterexample: the first Story Planner attempt succeeds with no text,
which the source turns into the empty JSON array; JSON.parse succeeds,
so the empty result is returned directly and the lower tier is never
invoked — refuting the claim that an empty first result triggers the
retry. -/
theorem storyRetry_counterexample :
    (generateStoryScenes "Mia" "Space" 3
      { attempt1 := Except.ok none, attempt2 := Except.error () }).result = [] ∧
    ((generateStoryScenes "Mia" "Space" 3
      { attempt1 := Except.ok none, attempt2 := Except.error () }).calls.map
        fun c => c.model) = ["gemini-3-pro-preview"] := by
  exact ⟨by decide, by decide⟩

/-- C4 amended: if the first attempt throws or returns output that fails to
parse as a JSON string array, generateStoryScenes retries exactly once
against the lower tier with the stricter return-only-the-array suffix
appended; an empty-but-parseable first result is returned as-is without
any retry; if the retry also throws or fails to parse, the function
returns the empty sequence rather than throwing. -/
theorem storyRetry_amended (childName theme : String) (pageCount : Nat) (env : StoryEnv)
    (h1 : env.attempt1 = Except.error () ∨
      ∃ t, env.attempt1 = Except.ok t ∧ storyAttemptParse t = none) :
    ((generateStoryScenes childName theme pageCount env).calls.map fun c => c.model) =
      ["gemini-3-pro-preview", "gemini-2.5-flash"] ∧
    ((generateStoryScenes childName theme pageCount env).calls.map fun c => c.contents) =
      [storyPrompt childName theme pageCount,
        storyPrompt childName theme pageCount ++ "\n Return ONLY a JSON array of strings."] ∧
    ((env.attempt2 = Except.error () ∨
        ∃ t, env.attempt2 = Except.ok t ∧ storyAttemptParse t = none) →
      (generateStoryScenes childName theme pageCount env).result = []) := by
  have hcall : generateStoryScenes childName theme pageCount env =
      storyFallback
        { model := "gemini-3-pro-preview",
          contents := storyPrompt childName theme pageCount }
        { model := "gemini-2.5-flash",
          contents := storyPrompt childName theme pageCount ++
            "\n Return ONLY a JSON array of strings." } env := by
    rcases h1 with h | ⟨t, ht, hp⟩
    · unfold generateStoryScenes
      rw [h]
    · unfold generateStoryScenes
      rw [ht]
      simp only []
      rw [hp]
  rw [hcall]
  refine ⟨rfl, rfl, fun hfail => ?_⟩
  unfold storyFallback
  rcases hfail with h | ⟨t, ht, hp⟩
  · rw [h]
  · rw [ht]
    have hres : storyTierResult t = [] := by
      unfold storyTierResult
      rw [hp]
    exact hres

/-- C4 witness for the amended theorem: both tiers throw. -/
theorem storyRetry_amended_witness :
    (((Except.error () : Except Unit (Option String)) = Except.error () ∨
      ∃ t, (Except.error () : Except Unit (Option String)) = Except.ok t ∧
        storyAttemptParse t = none) ∧
    ((generateStoryScenes "Mia" "Space" 3 ⟨Except.error (), Except.error ()⟩).calls.map
        fun c => c.model) = ["gemini-3-pro-preview", "gemini-2.5-flash"] ∧
    ((generateStoryScenes "Mia" "Space" 3 ⟨Except.error (), Except.error ()⟩).calls.map
        fun c => c.contents) =
      [storyPrompt "Mia" "Space" 3,
        storyPrompt "Mia" "Space" 3 ++ "\n Return ONLY a JSON array of strings."] ∧
    (generateStoryScenes "Mia" "Space" 3 ⟨Except.error (), Except.error ()⟩).result = []) := by
  have h := storyRetry_amended "Mia" "Space" 3 ⟨Except.error (), Except.error ()⟩ (Or.inl rfl)
  exact ⟨Or.inl rfl, h.1, h.2.1, h.2.2 (Or.inl rfl)⟩

-- ---------------------------------------------------------------------------
-- C6
-- ---------------------------------------------------------------------------

/-- C6: when the first image-model call throws, generateColoringPage retries
exactly once against the lower-capability image model, with the same
aspect ratio but no imageSize in the request; if the retry also throws,
it returns the explicit no-image result (the function is total, so no
exception escapes its boundary). -/
theorem imageFallback_noResolution (env : ImageEnv) (scene style : String)
    (age : AgeGroup) (ar size : String) (h1 : env.attempt1 = Except.error ()) :
    ((generateColoringPage env scene style age ar size).requests.map fun q => q.model) =
      ["gemini-3-pro-image-preview", "gemini-2.5-flash-image"] ∧
    ((generateColoringPage env scene style age ar size).requests.map fun q => q.aspectRatio) =
      [some ar, some ar] ∧
    ((generateColoringPage env scene style age ar size).requests.map fun q => q.imageSize) =
      [some size, none] ∧
    (env.attempt2 = Except.error () →
      (generateColoringPage env scene style age ar size).result = none) := by
  unfold generateColoringPage
  rw [h1]
  rcases h2 : env.attempt2 with e | r
  · exact ⟨rfl, rfl, rfl, fun _ => rfl⟩
  · exact ⟨rfl, rfl, rfl, fun hfail => absurd hfail (by simp)⟩

/-- C6 witness: both image tiers throw on a concrete page. -/
theorem imageFallback_noResolution_witness :
    (imgFail.attempt1 = Except.error () ∧
    ((generateColoringPage imgFail "a" "Whimsical" AgeGroup.kids "3:4" "1K").requests.map
        fun q => q.model) = ["gemini-3-pro-image-preview", "gemini-2.5-flash-image"] ∧
    ((generateColoringPage imgFail "a" "Whimsical" AgeGroup.kids "3:4" "1K").requests.map
        fun q => q.aspectRatio) = [some "3:4", some "3:4"] ∧
    ((generateColoringPage imgFail "a" "Whimsical" AgeGroup.kids "3:4" "1K").requests.map
        fun q => q.imageSize) = [some "1K", none] ∧
    (generateColoringPage imgFail "a" "Whimsical" AgeGroup.kids "3:4" "1K").result = none) := by
  have h := imageFallback_noResolution imgFail "a" "Whimsical" AgeGroup.kids "3:4" "1K" rfl
  exact ⟨rfl, h.1, h.2.1, h.2.2.1, h.2.2.2 rfl⟩

-- ---------------------------------------------------------------------------
-- C10
-- ---------------------------------------------------------------------------

/-- C10: when the first image-model call succeeds but its response carries no
inline image data, generateColoringPage returns none immediately and the
lower tier is never attempted — the fallback fires only on a thrown
first call. -/
theorem imageNoInline_noFallback (env : ImageEnv) (scene style : String)
    (age : AgeGroup) (ar size : String) (r : ImageResponse)
    (h1 : env.attempt1 = Except.ok r) (h2 : extractImage r = none) :
    (generateColoringPage env scene style age ar size).result = none ∧
    ((generateColoringPage env scene style age ar size).requests.map fun q => q.model) =
      ["gemini-3-pro-image-preview"] := by
  unfold generateColoringPage
  rw [h1]
  exact ⟨h2, rfl⟩

/-- C10 witness: a successful first call whose parts carry no inline data. -/
theorem imageNoInline_noFallback_witness :
    (imgNoData.attempt1 = Except.ok ⟨[⟨none⟩]⟩ ∧
      extractImage ⟨[⟨none⟩]⟩ = none) ∧
    ((generateColoringPage imgNoData "a" "Whimsical" AgeGroup.kids "3:4" "1K").result = none ∧
    ((generateColoringPage imgNoData "a" "Whimsical" AgeGroup.kids "3:4" "1K").requests.map
        fun q => q.model) = ["gemini-3-pro-image-preview"]) :=
  ⟨⟨rfl, by decide⟩,
    imageNoInline_noFallback imgNoData "a" "Whimsical" AgeGroup.kids "3:4" "1K"
      ⟨[⟨none⟩]⟩ rfl (by decide)⟩

-- ---------------------------------------------------------------------------
-- C2
-- ---------------------------------------------------------------------------

/-- C2: whenever the Story Planner returns a non-empty sequence, the run
ends in COMPLETED and exactly one SavedProject is prepended to the
Project Store; its pages field is the final page array, which has one
entry per returned scene and in which every page carries a terminal
status (failed pages are retained with status failed, not dropped). -/
theorem runWithScenes_completesAndPersists (cfg : BookConfig) (apiKey : String)
    (prevPages : List GeneratedPage) (history : List SavedProject) (env : RunEnv)
    (hkey : ¬ apiKey = "") (hname : ¬ jsTrim cfg.childName = "")
    (hne : ¬ (generateStoryScenes cfg.childName (resolveTheme cfg env.themeCall)
      cfg.pageCount env.story).result = []) :
    (startGeneration cfg apiKey prevPages history env).appState = AppState.COMPLETED ∧
    (startGeneration cfg apiKey prevPages history env).history =
      { id := toString env.now, timestamp := env.now,
        config := { cfg with theme := resolveTheme cfg env.themeCall },
        pages := (startGeneration cfg apiKey prevPages history env).pages } ::
        history.take 2 ∧
    (startGeneration cfg apiKey prevPages history env).pages.length =
      (generateStoryScenes cfg.childName (resolveTheme cfg env.themeCall)
        cfg.pageCount env.story).result.length ∧
    ∀ p ∈ (startGeneration cfg apiKey prevPages history env).pages, isDone p := by
  unfold startGeneration
  rw [if_neg hkey, if_neg hname, if_neg hne]
  unfold startGenerationSuccess generateImagesSequence
  refine ⟨rfl, rfl, ?_, ?_⟩
  · show (genSeqTrace cfg env.images 0 [] (mkInitialPages _)).2.length = _
    rw [genSeqTrace_final_length, mkInitialPages_length]
    simp
  · exact genSeqTrace_final_isDone cfg env.images _ [] 0 (by simp)

/-- C2 witness: a concrete two-scene run whose second render fails both
tiers. -/
theorem runWithScenes_completesAndPersists_witness :
    (¬ (generateStoryScenes cfgMia.childName (resolveTheme cfgMia envTwoScenes.themeCall)
      cfgMia.pageCount envTwoScenes.story).result = []) ∧
    ((startGeneration cfgMia "k" [] [] envTwoScenes).appState = AppState.COMPLETED ∧
    (startGeneration cfgMia "k" [] [] envTwoScenes).history =
      { id := toString envTwoScenes.now, timestamp := envTwoScenes.now,
        config := { cfgMia with theme := resolveTheme cfgMia envTwoScenes.themeCall },
        pages := (startGeneration cfgMia "k" [] [] envTwoScenes).pages } ::
        ([] : List SavedProject).take 2 ∧
    (startGeneration cfgMia "k" [] [] envTwoScenes).pages.length =
      (generateStoryScenes cfgMia.childName (resolveTheme cfgMia envTwoScenes.themeCall)
        cfgMia.pageCount envTwoScenes.story).result.length ∧
    ∀ p ∈ (startGeneration cfgMia "k" [] [] envTwoScenes).pages, isDone p) :=
  ⟨by decide,
    runWithScenes_completesAndPersists cfgMia "k" [] [] envTwoScenes
      (by decide) (by decide) (by decide)⟩

-- ---------------------------------------------------------------------------
-- C5 (corrected)
-- ---------------------------------------------------------------------------

/-- C5 counterexample: a run configured for 2 pages whose planner returns a
single scene; planning succeeded (the run completes) yet the constructed
page array has length 1, not the configured page count 2 — nothing
validates the returned count against pageCount. -/
theorem pageCountInvariant_counterexample :
    cfgMia.pageCount = 2 ∧
    (generateStoryScenes cfgMia.childName (resolveTheme cfgMia envOneScene.themeCall)
      cfgMia.pageCount envOneScene.story).result = ["one scene"] ∧
    (startGeneration cfgMia "k" [] [] envOneScene).appState = AppState.COMPLETED ∧
    (startGeneration cfgMia "k" [] [] envOneScene).pages.length = 1 := by
  exact ⟨by decide, by decide, by decide, by decide⟩

/-- C5 amended: once planning succeeds, the constructed page array (both the
array published the instant the planner returns and the final persisted
one) has exactly one GeneratedPage per returned scene description — the
length equals the length of the planner result, which the code never
validates against config.pageCount. -/
theorem pageCountInvariant_amended (cfg : BookConfig) (apiKey : String)
    (prevPages : List GeneratedPage) (history : List SavedProject) (env : RunEnv)
    (hkey : ¬ apiKey = "") (hname : ¬ jsTrim cfg.childName = "")
    (hne : ¬ (generateStoryScenes cfg.childName (resolveTheme cfg env.themeCall)
      cfg.pageCount env.story).result = []) :
    (startGeneration cfg apiKey prevPages history env).pageTrace.head? =
      some (mkInitialPages (generateStoryScenes cfg.childName
        (resolveTheme cfg env.themeCall) cfg.pageCount env.story).result) ∧
    (mkInitialPages (generateStoryScenes cfg.childName
      (resolveTheme cfg env.themeCall) cfg.pageCount env.story).result).length =
      (generateStoryScenes cfg.childName (resolveTheme cfg env.themeCall)
        cfg.pageCount env.story).result.length ∧
    (startGeneration cfg apiKey prevPages history env).pages.length =
      (generateStoryScenes cfg.childName (resolveTheme cfg env.themeCall)
        cfg.pageCount env.story).result.length := by
  unfold startGeneration
  rw [if_neg hkey, if_neg hname, if_neg hne]
  unfold startGenerationSuccess generateImagesSequence
  refine ⟨rfl, mkInitialPages_length _, ?_⟩
  show (genSeqTrace cfg env.images 0 [] (mkInitialPages _)).2.length = _
  rw [genSeqTrace_final_length, mkInitialPages_length]
  simp

/-- C5 amended witness: the one-scene run builds exactly one page. -/
theorem pageCountInvariant_amended_witness :
    (¬ (generateStoryScenes cfgMia.childName (resolveTheme cfgMia envOneScene.themeCall)
      cfgMia.pageCount envOneScene.story).result = []) ∧
    ((startGeneration cfgMia "k" [] [] envOneScene).pageTrace.head? =
      some (mkInitialPages (generateStoryScenes cfgMia.childName
        (resolveTheme cfgMia envOneScene.themeCall) cfgMia.pageCount
        envOneScene.story).result) ∧
    (mkInitialPages (generateStoryScenes cfgMia.childName
      (resolveTheme cfgMia envOneScene.themeCall) cfgMia.pageCount
      envOneScene.story).result).length =
      (generateStoryScenes cfgMia.childName (resolveTheme cfgMia envOneScene.themeCall)
        cfgMia.pageCount envOneScene.story).result.length ∧
    (startGeneration cfgMia "k" [] [] envOneScene).pages.length =
      (generateStoryScenes cfgMia.childName (resolveTheme cfgMia envOneScene.themeCall)
        cfgMia.pageCount envOneScene.story).result.length) :=
  ⟨by decide,
    pageCountInvariant_amended cfgMia "k" [] [] envOneScene
      (by decide) (by decide) (by decide)⟩

-- ---------------------------------------------------------------------------
-- C7
-- ---------------------------------------------------------------------------

/-- C7: in every page array a run publishes, at most one page has status
generating — rendering is strictly sequential and non-overlapping. -/
theorem atMostOneGenerating (cfg : BookConfig) (apiKey : String)
    (prevPages : List GeneratedPage) (history : List SavedProject) (env : RunEnv) :
    ∀ snap ∈ (startGeneration cfg apiKey prevPages history env).pageTrace,
      countGenerating snap ≤ 1 := by
  unfold startGeneration
  split_ifs with h1 h2 h3
  · intro snap hs
    simp at hs
  · intro snap hs
    simp at hs
  · intro snap hs
    simp at hs
  · unfold startGenerationSuccess generateImagesSequence
    intro snap hs
    rcases List.mem_cons.mp hs with rfl | hs
    · have h0 : countGenerating (mkInitialPages (generateStoryScenes cfg.childName
          (resolveTheme cfg env.themeCall) cfg.pageCount env.story).result) = 0 :=
        countGenerating_zero_of _ fun q hq => by
          simp [mkInitialPages_pending _ q hq]
      rw [h0]
      omega
    · exact genSeqTrace_count_le_one cfg env.images _ [] 0 (by simp)
        (mkInitialPages_pending _) snap hs

/-- C7 witness: the all-pending snapshot of a concrete run. -/
theorem atMostOneGenerating_witness :
    mkInitialPages ["a", "b"] ∈ (startGeneration cfgMia "k" [] [] envTwoScenes).pageTrace ∧
    countGenerating (mkInitialPages ["a", "b"]) ≤ 1 :=
  ⟨by decide,
    atMostOneGenerating cfgMia "k" [] [] envTwoScenes
      (mkInitialPages ["a", "b"]) (by decide)⟩

-- ---------------------------------------------------------------------------
-- C8
-- ---------------------------------------------------------------------------

/-- C8: the first page array a run publishes (when it publishes at all) is
all pending — assigned the instant the Story Planner returns — and every
two consecutively published arrays differ by exactly one page taking one
legal forward step: pending to generating, or generating to a terminal
status; so no page moves backwards or reaches a terminal status without
passing through generating, and the array is published after every
single transition. -/
theorem pageStatus_monotonic (cfg : BookConfig) (apiKey : String)
    (prevPages : List GeneratedPage) (history : List SavedProject) (env : RunEnv) :
    (∀ init, (startGeneration cfg apiKey prevPages history env).pageTrace.head? = some init →
      ∀ p ∈ init, p.status = PageStatus.pending) ∧
    List.Chain' snapStep (startGeneration cfg apiKey prevPages history env).pageTrace := by
  unfold startGeneration
  split_ifs with h1 h2 h3
  · exact ⟨fun init hinit => by simp at hinit, by simp⟩
  · exact ⟨fun init hinit => by simp at hinit, by simp⟩
  · exact ⟨fun init hinit => by simp at hinit, by simp⟩
  · unfold startGenerationSuccess generateImagesSequence
    constructor
    · intro init hinit
      rw [List.head?_cons, Option.some_inj] at hinit
      rw [← hinit]
      exact mkInitialPages_pending _
    · have := genSeqTrace_chain cfg env.images (mkInitialPages
        (generateStoryScenes cfg.childName (resolveTheme cfg env.themeCall)
          cfg.pageCount env.story).result) [] 0 (mkInitialPages_pending _)
      simpa using this

/-- C8 witness: the concrete two-scene run publishes an all-pending first
array and a chain of single-step transitions. -/
theorem pageStatus_monotonic_witness :
    (startGeneration cfgMia "k" [] [] envTwoScenes).pageTrace.head? =
      some (mkInitialPages ["a", "b"]) ∧
    (∀ p ∈ mkInitialPages ["a", "b"], p.status = PageStatus.pending) ∧
    List.Chain' snapStep (startGeneration cfgMia "k" [] [] envTwoScenes).pageTrace :=
  ⟨by decide,
    (pageStatus_monotonic cfgMia "k" [] [] envTwoScenes).1
      (mkInitialPages ["a", "b"]) (by decide),
    (pageStatus_monotonic cfgMia "k" [] [] envTwoScenes).2⟩

-- ---------------------------------------------------------------------------
-- C9
-- ---------------------------------------------------------------------------

/-- C9: a run started with a blank theme resolves its theme through the
Theme Oracle random-theme call before planning (the Story Planner is
invoked with the resolved theme, never the blank input); a failed oracle
call yields the fixed literal default; and the persisted record stores
the resolved theme in its config. -/
theorem blankTheme_resolvedAndPersisted (cfg : BookConfig) (apiKey : String)
    (prevPages : List GeneratedPage) (history : List SavedProject) (env : RunEnv)
    (hkey : ¬ apiKey = "") (hname : ¬ jsTrim cfg.childName = "")
    (hblank : jsTrim cfg.theme = "") :
    (startGeneration cfg apiKey prevPages history env).resolvedTheme =
      generateRandomTheme env.themeCall ∧
    (startGeneration cfg apiKey prevPages history env).plannerTheme =
      some (generateRandomTheme env.themeCall) ∧
    (env.themeCall = Except.error () →
      (startGeneration cfg apiKey prevPages history env).resolvedTheme =
        "Magical Forest Adventure") ∧
    (¬ (generateStoryScenes cfg.childName (generateRandomTheme env.themeCall)
        cfg.pageCount env.story).result = [] →
      ∃ rest, (startGeneration cfg apiKey prevPages history env).history =
        { id := toString env.now, timestamp := env.now,
          config := { cfg with theme := generateRandomTheme env.themeCall },
          pages := (startGeneration cfg apiKey prevPages history env).pages } :: rest) := by
  have hres : resolveTheme cfg env.themeCall = generateRandomTheme env.themeCall := by
    unfold resolveTheme
    rw [if_pos hblank]
  unfold startGeneration startGenerationSuccess generateImagesSequence
  rw [if_neg hkey, if_neg hname, hres]
  by_cases hne : (generateStoryScenes cfg.childName (generateRandomTheme env.themeCall)
      cfg.pageCount env.story).result = []
  · rw [if_pos hne]
    exact ⟨rfl, rfl, fun h => by rw [h]; rfl, fun h => absurd hne h⟩
  · rw [if_neg hne]
    exact ⟨rfl, rfl, fun h => by rw [h]; rfl, fun _ => ⟨history.take 2, rfl⟩⟩

/-- C9 witness: a blank-theme run whose oracle call throws; the default
theme is planned with and persisted. -/
theorem blankTheme_resolvedAndPersisted_witness :
    jsTrim { cfgMia with theme := "  " }.theme = "" ∧
    ((startGeneration { cfgMia with theme := "  " } "k" [] []
        { envTwoScenes with themeCall := Except.error () }).resolvedTheme =
      generateRandomTheme (Except.error ()) ∧
    (startGeneration { cfgMia with theme := "  " } "k" [] []
        { envTwoScenes with themeCall := Except.error () }).plannerTheme =
      some (generateRandomTheme (Except.error ())) ∧
    ((Except.error () : Except Unit (Option String)) = Except.error () →
      (startGeneration { cfgMia with theme := "  " } "k" [] []
        { envTwoScenes with themeCall := Except.error () }).resolvedTheme =
        "Magical Forest Adventure") ∧
    (¬ (generateStoryScenes { cfgMia with theme := "  " }.childName
        (generateRandomTheme (Except.error ()))
        { cfgMia with theme := "  " }.pageCount
        { envTwoScenes with themeCall := Except.error () }.story).result = [] →
      ∃ rest, (startGeneration { cfgMia with theme := "  " } "k" [] []
          { envTwoScenes with themeCall := Except.error () }).history =
        { id := toString ({ envTwoScenes with themeCall := Except.error () } : RunEnv).now,
          timestamp := ({ envTwoScenes with themeCall := Except.error () } : RunEnv).now,
          config := { { cfgMia with theme := "  " } with
            theme := generateRandomTheme (Except.error ()) },
          pages := (startGeneration { cfgMia with theme := "  " } "k" [] []
            { envTwoScenes with themeCall := Except.error () }).pages } :: rest)) :=
  ⟨by decide,
    blankTheme_resolvedAndPersisted { cfgMia with theme := "  " } "k" [] []
      { envTwoScenes with themeCall := Except.error () }
      (by decide) (by decide) (by decide)⟩

end DreamLines
